import Mathlib

/-!
Verification of the NDVI notebook (`docs/notebooks/COG NDVI.ipynb`).

The notebook's computational cell is

  np.seterr(divide='ignore', invalid='ignore')
  ndvi = (b4.astype(float) - b3.astype(float)) / (b4 + b3)

where `b3` (red) and `b4` (near infrared) are the uint16 pixel arrays read
from Landsat 8 cloud-optimized GeoTIFF bands.  We embed numpy's semantics
for this expression:

* arrays are a shape (list of dimension sizes) together with row-major
  flat data;
* binary operations broadcast shapes numpy-style (align right, a dimension
  matches if the two sizes are equal or one of them is 1), and raise on
  incompatible shapes — modelled as `Except RatioError`;
* `b4 + b3` is uint16 addition, i.e. addition modulo 2^16 (the Landsat
  bands are uint16; numpy array integer addition wraps silently);
* `astype(float)` and the float division are modelled over exact rationals
  extended with infinities and NaN.  Every uint16 value, and every sum and
  difference of two of them, is exactly representable in IEEE 754 double
  precision, and the sign/zero classification of numerator and denominator
  (which decides the 0, ±inf and NaN cases) is exact, so the rational model
  agrees with float64 on every property decided below; the only idealised
  part is that generic quotients are not rounded to 53 bits, and rounding
  to nearest cannot move a quotient of magnitude ≤ 1 above 1.
-/

/-- IEEE-style extended value: a finite value (exact rational), `+inf`,
`-inf`, or NaN. -/
inductive FP where
  | fin : ℚ → FP
  | inf : FP
  | ninf : FP
  | nan : FP
deriving DecidableEq

/-- An `FP` value is finite when it carries a rational. -/
def FP.isFinite : FP → Bool
  | .fin _ => true
  | _ => false

/-- IEEE 754 division of a finite numerator by a finite denominator:
`x/0` is NaN when `x = 0`, and `±inf` according to the sign of `x`
otherwise. -/
def fpDivQ (x y : ℚ) : FP :=
  if y ≠ 0 then .fin (x / y)
  else if x = 0 then .nan
  else if 0 < x then .inf
  else .ninf

/-- A numpy ndarray: a shape and row-major flat data. -/
structure NDArray (α : Type) where
  shape : List Nat
  data : List α
deriving DecidableEq

/-- Well-formedness of an ndarray: the flat data has exactly one entry per
position of the shape. -/
def NDArray.wf (a : NDArray α) : Prop := a.data.length = a.shape.prod

/-- numpy's rule for matching one pair of dimensions: equal sizes, or one
of them is 1 (which is then stretched). -/
def bcastDim (a b : Nat) : Option Nat :=
  if a = b then some a
  else if a = 1 then some b
  else if b = 1 then some a
  else none

/-- Broadcast two shapes given with their innermost (fastest-varying)
dimension first; `none` when the shapes are incompatible. -/
def bcastRev : List Nat → List Nat → Option (List Nat)
  | [], t => some t
  | s, [] => some s
  | a :: s, b :: t => do
      let d ← bcastDim a b
      let rest ← bcastRev s t
      pure (d :: rest)

/-- numpy broadcasting of two shapes (outermost dimension first): align the
shapes on the right and match dimension pairs. -/
def broadcastShapes (s t : List Nat) : Option (List Nat) :=
  (bcastRev s.reverse t.reverse).map List.reverse

/-- Digits of a flat row-major index, innermost dimension first; the shape
is given innermost-first. -/
def toMultiRev : List Nat → Nat → List Nat
  | [], _ => []
  | d :: ds, k => (k % d) :: toMultiRev ds (k / d)

/-- Flat row-major index of a multi-index into an operand, both given
innermost dimension first.  A stretched dimension (size 1) always reads
position 0, and dimensions the operand lacks are dropped — numpy's
broadcast indexing. -/
def fromMultiRev : List Nat → List Nat → Nat
  | _, [] => 0
  | [], _ => 0
  | i :: is, d :: ds => (if d = 1 then 0 else i) + d * fromMultiRev is ds

/-- Element of operand `a` contributing to flat position `k` of a broadcast
result of (innermost-first) shape `srev`. -/
def bcastGet (dflt : α) (a : NDArray α) (srev : List Nat) (k : Nat) : α :=
  a.data.getD (fromMultiRev (toMultiRev srev k) a.shape.reverse) dflt

/-- A numpy elementwise binary operation: broadcast the shapes (failing on
incompatible ones) and combine matching elements. -/
def bcastZip (da : α) (db : β) (f : α → β → γ) (a : NDArray α) (b : NDArray β) :
    Option (NDArray γ) :=
  match broadcastShapes a.shape b.shape with
  | none => none
  | some s =>
      some ⟨s, (List.range s.prod).map fun k =>
        f (bcastGet da a s.reverse k) (bcastGet db b s.reverse k)⟩

/-- uint16 array addition: numpy wraps silently modulo 2^16. -/
def addU16 (x y : Nat) : Nat := (x + y) % 65536

/-- The error a numpy elementwise operation raises on shapes that cannot be
broadcast together (the spec's `ShapeMismatch`). -/
inductive RatioError where
  | ShapeMismatch : RatioError
deriving DecidableEq

/-- The notebook's NDVI expression
`(b4.astype(float) - b3.astype(float)) / (b4 + b3)` on uint16 bands
`b3` (red) and `b4` (near infrared): the subtraction is performed in
float64 on the promoted operands, while the denominator `b4 + b3` is
computed in uint16 (wrapping modulo 2^16) and only promoted at the
division. -/
def ndvi (b3 b4 : NDArray Nat) : Except RatioError (NDArray FP) :=
  match bcastZip 0 0 (fun (r n : Nat) => ((n : ℚ) - (r : ℚ))) b3 b4 with
  | none => .error .ShapeMismatch
  | some num =>
      match bcastZip 0 0 addU16 b3 b4 with
      | none => .error .ShapeMismatch
      | some den =>
          match bcastZip 0 0 (fun q d => fpDivQ q ((d : Nat) : ℚ)) num den with
          | none => .error .ShapeMismatch
          | some out => .ok out

/-- The computation the spec describes: every element promoted to floating
point before any arithmetic, so the denominator `nir + red` is an exact
(float64-representable) sum, never a wrapped uint16 sum. -/
def ndviPromoted (b3 b4 : NDArray Nat) : Except RatioError (NDArray FP) :=
  match bcastZip 0 0 (fun (r n : Nat) => ((n : ℚ) - (r : ℚ))) b3 b4 with
  | none => .error .ShapeMismatch
  | some num =>
      match bcastZip 0 0 (fun (r n : Nat) => ((r : ℚ) + (n : ℚ))) b3 b4 with
      | none => .error .ShapeMismatch
      | some den =>
          match bcastZip 0 0 (fun q d => fpDivQ q d) num den with
          | none => .error .ShapeMismatch
          | some out => .ok out

/-! ### Masked remote raster reader (spec-modelled)

The notebook reads each band with

  with rasterio.open(url) as src:
      band, transform = mask(dataset=src, shapes=mask_gdf.geometry, crop=True)

`rasterio.open` and `rasterio.mask.mask` are library code whose
implementation is not part of this repository, so the reader is modelled
from the spec's §4.1 contract: geometries are axis-aligned world-coordinate
rectangles, a raster is a pixel grid anchored at an integer origin, and the
reader returns the bounding window of the geometries with non-geometry
pixels set to the nodata value. -/

/-- Errors of the masked remote raster reader (spec §4.1/§7). -/
inductive ReadError where
  | ResourceUnavailable : ReadError
  | GeometryMismatch : ReadError
deriving DecidableEq

/-- An axis-aligned rectangle in world coordinates, bounds inclusive. -/
structure Rect where
  xmin : Int
  ymin : Int
  xmax : Int
  ymax : Int
deriving DecidableEq

/-- Whether two rectangles intersect. -/
def Rect.intersects (a b : Rect) : Bool :=
  decide (a.xmin ≤ b.xmax) && decide (b.xmin ≤ a.xmax) &&
  decide (a.ymin ≤ b.ymax) && decide (b.ymin ≤ a.ymax)

/-- Intersection of two rectangles (meaningful when they intersect). -/
def Rect.inter (a b : Rect) : Rect :=
  ⟨max a.xmin b.xmin, max a.ymin b.ymin, min a.xmax b.xmax, min a.ymax b.ymax⟩

/-- Modelled from the spec: a single-band raster source — a row-major grid
of `width * height` pixel values whose pixel (row 0, col 0) sits at world
point `(x0, y0)` (unit affine transform), with a declared nodata value. -/
structure RasterSource where
  x0 : Int
  y0 : Int
  width : Nat
  height : Nat
  data : List Nat
  nodata : Nat
deriving DecidableEq

/-- World-coordinate extent covered by a raster's pixels. -/
def RasterSource.extent (s : RasterSource) : Rect :=
  ⟨s.x0, s.y0, s.x0 + (s.width : Int) - 1, s.y0 + (s.height : Int) - 1⟩

/-- Pixel value of the raster at world point `(x, y)`. -/
def RasterSource.valueAt (s : RasterSource) (x y : Int) : Nat :=
  s.data.getD ((y - s.y0) * (s.width : Int) + (x - s.x0)).toNat s.nodata

/-- Whether world point `(x, y)` lies inside one of the mask geometries. -/
def pointInGeoms (geoms : List Rect) (x y : Int) : Bool :=
  geoms.any fun g =>
    decide (g.xmin ≤ x) && decide (x ≤ g.xmax) &&
    decide (g.ymin ≤ y) && decide (y ≤ g.ymax)

/-- Bounding box of a union of rectangles, accumulated onto `acc`. -/
def bboxUnion : List Rect → Rect → Rect
  | [], acc => acc
  | g :: gs, acc =>
      bboxUnion gs ⟨min acc.xmin g.xmin, min acc.ymin g.ymin,
        max acc.xmax g.xmax, max acc.ymax g.ymax⟩

/-- Bounding box of a non-empty list of geometries. -/
def geomsBBox : List Rect → Option Rect
  | [] => none
  | g :: gs => some (bboxUnion gs g)

/-- Result of a masked read: the window's pixel array together with the
window's affine transform, recorded as the world coordinates of its
pixel (0, 0). -/
structure MaskedResult where
  grid : NDArray Nat
  origin : Int × Int
deriving DecidableEq

/-- Modelled from the spec: the masking step — if no geometry intersects
the raster's extent the read fails with `GeometryMismatch`; otherwise the
output window is the geometries' bounding box clipped to the raster
(when `crop` is set) or the full extent (when it is not), and every window
pixel outside all geometries is replaced by the nodata value. -/
def maskRaster (src : RasterSource) (geoms : List Rect) (crop : Bool) :
    Except ReadError MaskedResult :=
  if geoms.all (fun g => !(g.intersects src.extent)) then
    .error .GeometryMismatch
  else
    let window :=
      if crop then
        match geomsBBox geoms with
        | none => src.extent
        | some bb => bb.inter src.extent
      else src.extent
    let w := (window.xmax - window.xmin + 1).toNat
    let h := (window.ymax - window.ymin + 1).toNat
    .ok ⟨⟨[h, w], (List.range (h * w)).map fun k =>
        let y := window.ymin + ((k / w : Nat) : Int)
        let x := window.xmin + ((k % w : Nat) : Int)
        if pointInGeoms geoms x y then src.valueAt x y else src.nodata⟩,
      (window.xmin, window.ymin)⟩

/-- Modelled from the spec: `read_masked(location, geometries, crop)`.
Resolution of the location is modelled by an `Option RasterSource`:
`none` stands for a location that cannot be opened or read (missing file,
network failure, permission denied) and fails with `ResourceUnavailable`. -/
def read_masked (loc : Option RasterSource) (geoms : List Rect) (crop : Bool) :
    Except ReadError MaskedResult :=
  match loc with
  | none => .error .ResourceUnavailable
  | some src => maskRaster src geoms crop

/-- Ambient state counting the open resource handles. -/
structure World where
  openHandles : Nat
deriving DecidableEq

/-- Modelled from the spec and the notebook's `with rasterio.open(url) as
src:` block: a successful open acquires a handle, the body performs the
masked read (which may fail with `GeometryMismatch`), and leaving the
`with` block releases the handle on every path; a failed open acquires no
handle and fails with `ResourceUnavailable`. -/
def read_masked_run (w : World) (loc : Option RasterSource) (geoms : List Rect)
    (crop : Bool) : Except ReadError MaskedResult × World :=
  match loc with
  | none => (.error .ResourceUnavailable, w)
  | some src =>
      let w1 : World := ⟨w.openHandles + 1⟩
      let r := maskRaster src geoms crop
      (r, ⟨w1.openHandles - 1⟩)

/-! ### numpy's global floating-point error state -/

/-- numpy's per-class floating-point error policy, as set by `np.seterr`. -/
inductive ErrPolicy where
  | warn : ErrPolicy
  | ignore : ErrPolicy
  | raiseErr : ErrPolicy
deriving DecidableEq

/-- numpy's global floating-point error-handling state: one policy per
error class, read and written by `np.seterr`. -/
structure NpErrState where
  divide : ErrPolicy
  over : ErrPolicy
  under : ErrPolicy
  invalid : ErrPolicy
deriving DecidableEq

/-- numpy's default error state (divide/over/invalid warn, underflow
ignored). -/
def npErrDefault : NpErrState := ⟨.warn, .warn, .ignore, .warn⟩

/-- The notebook's `np.seterr(divide='ignore', invalid='ignore')`: sets the
two named policies of the global state and leaves the others unchanged. -/
def np_seterr_divide_invalid_ignore (s : NpErrState) : NpErrState :=
  { s with divide := .ignore, invalid := .ignore }

/-- The notebook's NDVI cell as a transformer of numpy's global error
state: it first calls `np.seterr(divide='ignore', invalid='ignore')` and
then evaluates the NDVI expression under the just-set 'ignore' policies
(so the division silently produces non-finite values whatever the incoming
state was). -/
def ndviCell (s : NpErrState) (b3 b4 : NDArray Nat) :
    NpErrState × Except RatioError (NDArray FP) :=
  (np_seterr_divide_invalid_ignore s, ndvi b3 b4)

/-! ### Broadcasting lemmas -/

/-- Matching a dimension against itself succeeds. -/
theorem bcastDim_self (a : Nat) : bcastDim a a = some a := by
  simp [bcastDim]

/-- Broadcasting a (reversed) shape against itself succeeds and returns it. -/
theorem bcastRev_self (l : List Nat) : bcastRev l l = some l := by
  induction l with
  | nil => rfl
  | cons a s ih => simp [bcastRev, bcastDim_self, ih]

/-- Broadcasting a shape against itself succeeds and returns it. -/
theorem broadcastShapes_self (s : List Nat) : broadcastShapes s s = some s := by
  simp [broadcastShapes, bcastRev_self]

/-- Round trip of broadcast indexing when the operand shape equals the
result shape: digit decomposition followed by re-flattening is the
identity on in-range flat indices. -/
theorem fromMultiRev_toMultiRev (l : List Nat) :
    ∀ k : Nat, k < l.prod → fromMultiRev (toMultiRev l k) l = k := by
  induction l with
  | nil =>
      intro k hk
      have h0 : k = 0 := Nat.lt_one_iff.mp (by simpa using hk)
      subst h0
      rfl
  | cons d ds ih =>
      intro k hk
      have hd : 0 < d := by
        rcases Nat.eq_zero_or_pos d with h0 | h0
        · subst h0; simp at hk
        · exact h0
      have hdiv : k / d < ds.prod := by
        rw [Nat.div_lt_iff_lt_mul hd]
        calc k < (d :: ds).prod := hk
        _ = ds.prod * d := by rw [List.prod_cons, Nat.mul_comm]
      by_cases h1 : d = 1
      · subst h1
        rw [Nat.div_one] at hdiv
        simp [toMultiRev, fromMultiRev, ih _ hdiv]
      · simp only [toMultiRev, fromMultiRev, if_neg h1, ih _ hdiv]
        exact Nat.mod_add_div k d

/-- `getD` at an in-range position of a mapped range evaluates the map. -/
theorem getD_map_range (g : Nat → γ) (n k : Nat) (d : γ) (hk : k < n) :
    ((List.range n).map g).getD k d = g k := by
  rw [List.getD_eq_getElem?_getD, List.getElem?_map, List.getElem?_range hk]
  rfl

/-- When the result shape is the operand's own shape, broadcast element
lookup is plain flat indexing. -/
theorem bcastGet_self (dflt : α) (a : NDArray α) (k : Nat)
    (hk : k < a.shape.prod) :
    bcastGet dflt a a.shape.reverse k = a.data.getD k dflt := by
  unfold bcastGet
  rw [fromMultiRev_toMultiRev a.shape.reverse k (by rwa [List.prod_reverse])]

/-- An elementwise operation on two arrays of the same shape keeps that
shape and combines elements positionwise. -/
theorem bcastZip_eq_of_shape_eq (da : α) (db : β) (f : α → β → γ)
    (a : NDArray α) (b : NDArray β) (h : a.shape = b.shape) :
    bcastZip da db f a b =
      some ⟨a.shape, (List.range a.shape.prod).map fun k =>
        f (bcastGet da a a.shape.reverse k) (bcastGet db b a.shape.reverse k)⟩ := by
  unfold bcastZip
  rw [← h, broadcastShapes_self]

/-- An elementwise operation on two arrays of the same shape combines the
flat data positionwise. -/
theorem bcastZip_data_eq (da : α) (db : β) (f : α → β → γ)
    (a : NDArray α) (b : NDArray β) (h : a.shape = b.shape) :
    bcastZip da db f a b =
      some ⟨a.shape, (List.range a.shape.prod).map fun k =>
        f (a.data.getD k da) (b.data.getD k db)⟩ := by
  rw [bcastZip_eq_of_shape_eq da db f a b h]
  congr 1
  refine congrArg (NDArray.mk a.shape) (List.map_congr_left ?_)
  intro k hk
  have hk' : k < a.shape.prod := List.mem_range.mp hk
  rw [bcastGet_self da a k hk']
  congr 1
  show bcastGet db b a.shape.reverse k = b.data.getD k db
  unfold bcastGet
  rw [← h, fromMultiRev_toMultiRev a.shape.reverse k (by rwa [List.prod_reverse])]

/-- On equal-shape inputs the notebook's NDVI succeeds and computes, at
every flat position, the float subtraction of the promoted elements
divided by the wrapped uint16 sum. -/
theorem ndvi_ok_of_shape_eq (a b : NDArray Nat) (h : a.shape = b.shape) :
    ndvi a b = .ok ⟨a.shape, (List.range a.shape.prod).map fun k =>
      fpDivQ (((b.data.getD k 0 : Nat) : ℚ) - ((a.data.getD k 0 : Nat) : ℚ))
        ((addU16 (a.data.getD k 0) (b.data.getD k 0) : Nat) : ℚ)⟩ := by
  have h1 := bcastZip_data_eq (0 : Nat) (0 : Nat)
    (fun (r n : Nat) => ((n : ℚ) - (r : ℚ))) a b h
  have h2 := bcastZip_data_eq (0 : Nat) (0 : Nat) addU16 a b h
  have h3 := bcastZip_data_eq (0 : ℚ) (0 : Nat)
    (fun q d => fpDivQ q ((d : Nat) : ℚ))
    ⟨a.shape, (List.range a.shape.prod).map fun k =>
      ((b.data.getD k (0 : Nat) : ℚ) - (a.data.getD k (0 : Nat) : ℚ))⟩
    ⟨a.shape, (List.range a.shape.prod).map fun k =>
      addU16 (a.data.getD k 0) (b.data.getD k 0)⟩ rfl
  simp only [ndvi, h1, h2, h3]
  refine congrArg Except.ok (congrArg (NDArray.mk a.shape) (List.map_congr_left ?_))
  intro k hk
  have hk' : k < a.shape.prod := List.mem_range.mp hk
  rw [getD_map_range _ _ _ _ hk', getD_map_range _ _ _ _ hk']

/-- On shapes that cannot be broadcast together, the notebook's NDVI
expression raises the shape-mismatch error. -/
theorem ndvi_error_of_not_broadcastable (a b : NDArray Nat)
    (h : broadcastShapes a.shape b.shape = none) :
    ndvi a b = .error .ShapeMismatch := by
  simp [ndvi, bcastZip, h]

/-- Whenever the input shapes broadcast together, an elementwise operation
succeeds and produces the broadcast shape. -/
theorem bcastZip_ok_of_broadcast (da : α) (db : β) (f : α → β → γ)
    (a : NDArray α) (b : NDArray β) (s : List Nat)
    (h : broadcastShapes a.shape b.shape = some s) :
    bcastZip da db f a b = some ⟨s, (List.range s.prod).map fun k =>
      f (bcastGet da a s.reverse k) (bcastGet db b s.reverse k)⟩ := by
  unfold bcastZip
  rw [h]

/-- Whenever the input shapes broadcast to `s`, the notebook's NDVI
expression succeeds — whatever the element values — with an output of
shape `s`. -/
theorem ndvi_ok_of_broadcast (a b : NDArray Nat) (s : List Nat)
    (h : broadcastShapes a.shape b.shape = some s) :
    ∃ out, ndvi a b = .ok out ∧ out.shape = s := by
  have h1 := bcastZip_ok_of_broadcast (0 : Nat) (0 : Nat)
    (fun (r n : Nat) => ((n : ℚ) - (r : ℚ))) a b s h
  have h2 := bcastZip_ok_of_broadcast (0 : Nat) (0 : Nat) addU16 a b s h
  simp only [ndvi, h1, h2]
  rw [bcastZip_eq_of_shape_eq (0 : ℚ) (0 : Nat)
    (fun q d => fpDivQ q ((d : Nat) : ℚ)) _ _ rfl]
  exact ⟨_, rfl, rfl⟩

/-! ### Claims about the band-ratio computation -/

/-- C1: the NDVI computation is elementwise `(nir - red) / (nir + red)`;
for 1x1 arrays with red = 3 and nir = 5 it returns exactly 0.25. -/
theorem ndvi_one_by_one_red3_nir5 :
    ndvi ⟨[1, 1], [3]⟩ ⟨[1, 1], [5]⟩ = .ok ⟨[1, 1], [.fin 0.25]⟩ := by
  simp [ndvi, bcastZip, broadcastShapes, bcastRev, bcastDim, toMultiRev,
    fromMultiRev, bcastGet, addU16, fpDivQ, List.range_succ]
  norm_num

/-- C2 (code bug): on red = 30000, nir = 40000 the denominator
`nir + red` is computed in uint16 and wraps to 4464, so the notebook
returns 10000/4464 = 625/279 while the promoted computation the spec
requires returns 10000/70000 = 1/7. -/
theorem ndvi_uint16_overflow_bug :
    ndvi ⟨[1], [30000]⟩ ⟨[1], [40000]⟩ = .ok ⟨[1], [.fin (625 / 279)]⟩ ∧
    ndviPromoted ⟨[1], [30000]⟩ ⟨[1], [40000]⟩ = .ok ⟨[1], [.fin (1 / 7)]⟩ ∧
    (625 / 279 : ℚ) ≠ 1 / 7 := by
  refine ⟨?_, ?_, by norm_num⟩ <;>
  · simp [ndvi, ndviPromoted, bcastZip, broadcastShapes, bcastRev, bcastDim,
      toMultiRev, fromMultiRev, bcastGet, addU16, fpDivQ, List.range_succ]
    norm_num

/-- C3: wherever `red + nir = 0`, the NDVI computation still succeeds (no
error is raised) and the corresponding output element is NaN, a
non-finite value. -/
theorem ndvi_zero_sum_nonfinite (a b : NDArray Nat) (h : a.shape = b.shape)
    (k : Nat) (hk : k < a.shape.prod)
    (hz : a.data.getD k 0 + b.data.getD k 0 = 0) :
    ∃ out, ndvi a b = .ok out ∧ out.data.getD k (.fin 0) = .nan ∧
      (out.data.getD k (.fin 0)).isFinite = false := by
  refine ⟨_, ndvi_ok_of_shape_eq a b h, ?_⟩
  have hgd : (((List.range a.shape.prod).map fun k =>
      fpDivQ (((b.data.getD k 0 : Nat) : ℚ) - ((a.data.getD k 0 : Nat) : ℚ))
        ((addU16 (a.data.getD k 0) (b.data.getD k 0) : Nat) : ℚ)).getD k (.fin 0)) =
      fpDivQ (((b.data.getD k 0 : Nat) : ℚ) - ((a.data.getD k 0 : Nat) : ℚ))
        ((addU16 (a.data.getD k 0) (b.data.getD k 0) : Nat) : ℚ) :=
    getD_map_range _ _ _ _ hk
  have ha : a.data.getD k 0 = 0 := Nat.eq_zero_of_add_eq_zero_right hz
  have hb : b.data.getD k 0 = 0 := Nat.eq_zero_of_add_eq_zero_left hz
  constructor
  · rw [hgd, ha, hb]
    simp [addU16, fpDivQ]
  · rw [hgd, ha, hb]
    simp [addU16, fpDivQ, FP.isFinite]

/-- Witness for C3 at red = nir = [0]. -/
theorem ndvi_zero_sum_nonfinite_witness :
    ∃ out, ndvi ⟨[1], [0]⟩ ⟨[1], [0]⟩ = .ok out ∧
      out.data.getD 0 (.fin 0) = .nan ∧
      (out.data.getD 0 (.fin 0)).isFinite = false :=
  ndvi_zero_sum_nonfinite ⟨[1], [0]⟩ ⟨[1], [0]⟩ rfl 0 (by decide) (by decide)

/-- C4 (code bug): on red = 25000, nir = 45000 the wrapped uint16
denominator is 4464, and the notebook returns the finite value
20000/4464 = 1250/279 > 1, outside the guaranteed range [-1, 1]. -/
theorem ndvi_range_violation_bug :
    ndvi ⟨[1], [25000]⟩ ⟨[1], [45000]⟩ = .ok ⟨[1], [.fin (1250 / 279)]⟩ ∧
    (FP.fin (1250 / 279)).isFinite = true ∧ (1 : ℚ) < 1250 / 279 := by
  refine ⟨?_, rfl, by norm_num⟩
  simp [ndvi, bcastZip, broadcastShapes, bcastRev, bcastDim,
    toMultiRev, fromMultiRev, bcastGet, addU16, fpDivQ, List.range_succ]
  norm_num

/-- C5: on equal-shape inputs, NDVI succeeds and the output has the same
shape as the red band. -/
theorem ndvi_preserves_shape (a b : NDArray Nat) (h : a.shape = b.shape) :
    ∃ out, ndvi a b = .ok out ∧ out.shape = a.shape :=
  ⟨_, ndvi_ok_of_shape_eq a b h, rfl⟩

/-- Witness for C5 on a pair of 2-element arrays. -/
theorem ndvi_preserves_shape_witness :
    ∃ out, ndvi ⟨[2], [1, 2]⟩ ⟨[2], [3, 4]⟩ = .ok out ∧ out.shape = [2] :=
  ndvi_preserves_shape ⟨[2], [1, 2]⟩ ⟨[2], [3, 4]⟩ rfl

/-- C6 (code bug): with red = nir = 32768 (nonzero), the uint16 sum wraps
to 0 and the notebook returns NaN instead of the claimed 0. -/
theorem ndvi_equal_nonzero_nan_bug :
    (32768 : Nat) ≠ 0 ∧
    ndvi ⟨[1], [32768]⟩ ⟨[1], [32768]⟩ = .ok ⟨[1], [.nan]⟩ ∧
    FP.nan ≠ FP.fin 0 := by
  refine ⟨by norm_num, ?_, by simp⟩
  simp [ndvi, bcastZip, broadcastShapes, bcastRev, bcastDim,
    toMultiRev, fromMultiRev, bcastGet, addU16, fpDivQ, List.range_succ]

/-- C7 counterexample: red of shape [1,1] and nir of shape [1,3] have
differing shapes, yet NDVI does not fail — numpy broadcasts them and
returns a [1,3] result. -/
theorem ndvi_broadcast_no_error_on_differing_shapes :
    (NDArray.mk [1, 1] [2] : NDArray Nat).shape ≠
      (NDArray.mk [1, 3] [1, 2, 3] : NDArray Nat).shape ∧
    ndvi ⟨[1, 1], [2]⟩ ⟨[1, 3], [1, 2, 3]⟩ =
      .ok ⟨[1, 3], [.fin (-1 / 3), .fin 0, .fin (1 / 5)]⟩ := by
  refine ⟨by simp, ?_⟩
  simp [ndvi, bcastZip, broadcastShapes, bcastRev, bcastDim,
    toMultiRev, fromMultiRev, bcastGet, addU16, fpDivQ, List.range_succ]
  norm_num

/-- C7 amended: NDVI fails with `ShapeMismatch` exactly on input shapes
that numpy cannot broadcast together; every broadcast-compatible pair —
equal shapes and differing-but-compatible shapes alike, whatever the
element values — signals no error and yields the broadcast shape. -/
theorem ndvi_shape_error_policy (a b : NDArray Nat) :
    (broadcastShapes a.shape b.shape = none → ndvi a b = .error .ShapeMismatch) ∧
    (∀ s, broadcastShapes a.shape b.shape = some s →
      ∃ out, ndvi a b = .ok out ∧ out.shape = s) := by
  constructor
  · exact ndvi_error_of_not_broadcastable a b
  · intro s hs
    exact ndvi_ok_of_broadcast a b s hs

/-- Witness for C7 amended: shapes [2] and [3] cannot broadcast and fail;
the differing but broadcast-compatible shapes [1,1] and [1,3] broadcast to
[1,3] and succeed. -/
theorem ndvi_shape_error_policy_witness :
    ndvi ⟨[2], [1, 2]⟩ ⟨[3], [1, 2, 3]⟩ = .error .ShapeMismatch ∧
    ∃ out, ndvi ⟨[1, 1], [2]⟩ ⟨[1, 3], [1, 2, 3]⟩ = .ok out ∧ out.shape = [1, 3] :=
  ⟨(ndvi_shape_error_policy ⟨[2], [1, 2]⟩ ⟨[3], [1, 2, 3]⟩).1 (by decide),
   (ndvi_shape_error_policy ⟨[1, 1], [2]⟩ ⟨[1, 3], [1, 2, 3]⟩).2 [1, 3] (by decide)⟩

/-! ### Claims about the masked reader and the global error state -/

/-- C8: the masked remote read fails with `ResourceUnavailable` when the
location cannot be opened, and with `GeometryMismatch` when no geometry
intersects the raster's extent. -/
theorem read_masked_error_classification
    (loc : Option RasterSource) (geoms : List Rect) (crop : Bool) :
    (loc = none → read_masked loc geoms crop = .error .ResourceUnavailable) ∧
    (∀ src, loc = some src →
      (∀ g ∈ geoms, g.intersects src.extent = false) →
      read_masked loc geoms crop = .error .GeometryMismatch) := by
  constructor
  · intro h
    subst h
    rfl
  · intro src h hint
    subst h
    have hall : geoms.all (fun g => !(g.intersects src.extent)) = true := by
      rw [List.all_eq_true]
      intro g hg
      rw [hint g hg]
      rfl
    simp [read_masked, maskRaster, hall]

/-- Witness for C8: an unopenable location, and a 2x2 raster at the origin
with a mask rectangle wholly outside its extent. -/
theorem read_masked_error_classification_witness :
    read_masked none [⟨0, 0, 1, 1⟩] true = .error .ResourceUnavailable ∧
    read_masked (some ⟨0, 0, 2, 2, [1, 2, 3, 4], 0⟩) [⟨10, 10, 11, 11⟩] true =
      .error .GeometryMismatch :=
  ⟨(read_masked_error_classification none [⟨0, 0, 1, 1⟩] true).1 rfl,
   (read_masked_error_classification (some ⟨0, 0, 2, 2, [1, 2, 3, 4], 0⟩)
      [⟨10, 10, 11, 11⟩] true).2 ⟨0, 0, 2, 2, [1, 2, 3, 4], 0⟩ rfl (by decide)⟩

/-- C9: the masked read releases its resource handle on every exit path —
failed open, geometry mismatch, or success — so the number of open handles
after the call equals the number before it. -/
theorem read_masked_run_releases_handle (w : World) (loc : Option RasterSource)
    (geoms : List Rect) (crop : Bool) :
    (read_masked_run w loc geoms crop).2.openHandles = w.openHandles := by
  cases loc with
  | none => rfl
  | some src => simp [read_masked_run]

/-- C10 counterexample: starting from numpy's default error state, the
NDVI cell leaves the global error-handling configuration changed — the
`np.seterr(divide='ignore', invalid='ignore')` mutation persists after the
call. -/
theorem ndviCell_mutates_global_errstate :
    (ndviCell npErrDefault ⟨[1, 1], [3]⟩ ⟨[1, 1], [5]⟩).1 ≠ npErrDefault := by
  decide

/-- C10 amended: the NDVI value is a pure function of the two bands
(independent of the ambient error state), but the cell overwrites the
global divide and invalid policies with 'ignore' — a mutation that
persists after the call — while leaving the remaining policies unchanged. -/
theorem ndviCell_pure_value_persistent_seterr (s : NpErrState)
    (b3 b4 : NDArray Nat) :
    (ndviCell s b3 b4).2 = ndvi b3 b4 ∧
    (ndviCell s b3 b4).1.divide = .ignore ∧
    (ndviCell s b3 b4).1.invalid = .ignore ∧
    (ndviCell s b3 b4).1.over = s.over ∧
    (ndviCell s b3 b4).1.under = s.under :=
  ⟨rfl, rfl, rfl, rfl, rfl⟩
